import Mathlib

/-!
Verification of the SO101 arm motion-control server.

A shallow embedding of `server.py` (the motion-control layer of the
`so101arm-mcp` repository) and proofs about it.

Modelling conventions:

* Python floats are modelled as exact rationals (`ℚ`).
* A Python dict (a joint configuration) is an association list
  `List (String × ℚ)`; source dicts always have unique keys.
* The device (an `SO101Follower`) is modelled by the observation it
  returns from `get_observation()`; the embedding records the externally
  visible effects of each operation as a list of `Event`s:
  `Event.acquire` for a `_get_robot()` call, `Event.send f` for
  `robot.send_action(f)`, and `Event.sleep q` for `time.sleep(q)`.
  (`_release_robot` is a no-op under the persistent policy `_PERSIST =
  True` and emits no event.)
* Exceptions are modelled with `Except PyError`; operations that the
  source wraps in `try/except Exception: pass` are total functions.
* The session-manager functions (`_cfg`, `_get_robot`, `_cleanup_robot`)
  act on an explicit `MgrState` (the globals `_ROBOT` and the counters we
  observe).  The lock `_LOCK` serialises acquisitions and shutdown, so
  concurrent callers are modelled by an arbitrary serial order of calls.
-/

namespace Server

abbrev Key := String

abbrev Val := ℚ

/-- A joint configuration: a Python dict mapping channel names to values. -/
abbrev Config := List (Key × Val)

/-- Python `s.endswith(suffix)`, computed on the underlying character lists. -/
def strEndsWith (s suffix : String) : Bool :=
  List.isSuffixOf suffix.data s.data

/-- Code-point comparison of character lists (Python string `<`/`<=`). -/
def charListLe : List Char → List Char → Bool
  | [], _ => true
  | _ :: _, [] => false
  | a :: as, b :: bs =>
    if a.toNat < b.toNat then true
    else if b.toNat < a.toNat then false
    else charListLe as bs

/-- Python `a <= b` on strings (code-point lexicographic order). -/
def strLe (a b : String) : Bool := charListLe a.data b.data

/-- Python `d.get(k, v)` (and `d[k]` when the key is present) on a dict
modelled as an association list. -/
def lookupD (c : Config) (k : Key) (v : Val) : Val :=
  match c.find? (fun p => p.1 == k) with
  | some p => p.2
  | none => v

/-- Python `int()` applied to a float: truncation toward zero. -/
def pyInt (q : ℚ) : ℤ := if 0 ≤ q then ⌊q⌋ else ⌈q⌉

/-- Python `round()` applied to a float: round half to even.  This is the
formula the specification uses for the smooth-mode step count; the source
uses `int()` instead. -/
def pyRound (q : ℚ) : ℤ :=
  if q - ⌊q⌋ < 1/2 then ⌊q⌋
  else if 1/2 < q - ⌊q⌋ then ⌊q⌋ + 1
  else if ⌊q⌋ % 2 = 0 then ⌊q⌋ else ⌊q⌋ + 1

/-- Externally visible effects of an operation, in order. -/
inductive Event where
  | acquire : Event
  | send : Config → Event
  | sleep : Val → Event
  deriving DecidableEq

/-- The frames passed to `send_action`, in order. -/
def sends (l : List Event) : List Config :=
  l.filterMap fun e =>
    match e with
    | Event.send f => some f
    | _ => none

/-- The durations passed to `time.sleep`, in order. -/
def sleeps (l : List Event) : List ℚ :=
  l.filterMap fun e =>
    match e with
    | Event.sleep q => some q
    | _ => none

/-- The device, modelled by the observation `get_observation()` returns. -/
structure Robot where
  obs : Config
  deriving DecidableEq

/-- `_valid_keys`: the observation keys ending in `".pos"`. -/
def _valid_keys (r : Robot) : List Key :=
  (r.obs.map Prod.fst).filter (fun k => strEndsWith k ".pos")

/-- `_ease_in_out_quad`: `2*t*t if t < 0.5 else 1 - ((-2*t + 2)**2)/2`. -/
def _ease_in_out_quad (t : ℚ) : ℚ :=
  if t < 1/2 then 2*t*t else 1 - ((-2*t + 2)^2)/2

/-- The dict comprehension in `move`:
`target = {k: v for k, v in target.items() if k in keys}`. -/
def filteredTarget (r : Robot) (target : Config) : Config :=
  target.filter (fun p => decide (p.1 ∈ _valid_keys r))

/-- The optional settle sleep: `if settle > 0: time.sleep(settle)`. -/
def settleEvents (settle : ℚ) : List Event :=
  if 0 < settle then [Event.sleep settle] else []

/-- `start = {k: obs[k] for k in obs if k.endswith(".pos")}` in `move`. -/
def startConf (r : Robot) : Config :=
  r.obs.filter (fun p => strEndsWith p.1 ".pos")

/-- `joint_keys = sorted(set(start.keys()) & set(target.keys()))`. -/
def jointKeys (start tgt : Config) : List Key :=
  List.insertionSort (fun a b => strLe a b = true)
    ((start.map Prod.fst ∩ tgt.map Prod.fst).dedup)

/-- `steps = max(1, int(duration * fps))`. -/
def smoothSteps (duration : ℚ) (fps : ℤ) : ℕ :=
  max 1 (pyInt (duration * fps)).toNat

/-- The interpolation frame sent at (1-based) step `i` of `steps`:
`{k: start[k] + (target[k] - start[k]) * et for k in joint_keys}` with
`et = _ease_in_out_quad(i / steps)`. -/
def frameAt (start tgt : Config) (ks : List Key) (steps i : ℕ) : Config :=
  ks.map fun k =>
    (k, lookupD start k 0 +
        (lookupD tgt k 0 - lookupD start k 0) * _ease_in_out_quad ((i : ℚ) / (steps : ℚ)))

/-- The frames of the smooth-mode loop `for i in range(1, steps + 1)`. -/
def smoothFrames (start tgt : Config) (ks : List Key) (steps : ℕ) : List Config :=
  (List.range steps).map fun j => frameAt start tgt ks steps (j + 1)

/-- `move(target, duration, fps, settle)`, returning the Python result
together with its event trace.  The robot session is the one `_get_robot()`
returns (its acquisition is recorded as `Event.acquire`; the possibility
that acquisition itself raises is the topic of `_get_robot` below). -/
def move (r : Robot) (target : Config) (duration : ℚ) (fps : ℤ) (settle : ℚ) :
    Bool × List Event :=
  let tgt := filteredTarget r target
  if tgt.isEmpty then (false, [Event.acquire])
  else if duration ≤ 0 then
    (true, [Event.acquire, Event.send tgt] ++ settleEvents settle)
  else
    let start := startConf r
    let ks := jointKeys start tgt
    if ks.isEmpty then (false, [Event.acquire])
    else
      let steps := smoothSteps duration fps
      (true, Event.acquire ::
        ((smoothFrames start tgt ks steps).flatMap
          fun f => [Event.send f, Event.sleep (duration / (steps : ℚ))]) ++
        settleEvents settle)

/-- `poses.get(name, {})` on the loaded pose store. -/
def getPose (poses : List (String × Config)) (name : String) : Config :=
  match poses.find? (fun p => p.1 == name) with
  | some p => p.2
  | none => []

/-- `cycles = max(1, int(seconds / (2.0 * dwell)))`, shared by the three
binary oscillations. -/
def oscCycles (seconds dwell : ℚ) : ℕ :=
  max 1 (pyInt (seconds / (2 * dwell))).toNat

/-- One oscillation loop: `cycles` times, send `a`, sleep `dwell`, send
`b`, sleep `dwell`. -/
def oscEvents (a b : Config) (dwell : ℚ) (cycles : ℕ) : List Event :=
  (List.range cycles).flatMap fun _ =>
    [Event.send a, Event.sleep dwell, Event.send b, Event.sleep dwell]

/-- `open_pose = {"gripper.pos": 12.7}` in `talk`. -/
def open_pose : Config := [("gripper.pos", 127/10)]

/-- `close_pose = {"gripper.pos": 0.0}` in `talk`. -/
def close_pose : Config := [("gripper.pos", 0)]

/-- `talk(seconds, dwell)`: flap the gripper. -/
def talk (r : Robot) (seconds dwell : ℚ) : Bool × List Event :=
  if seconds ≤ 0 ∨ dwell ≤ 0 then (true, [])
  else if "gripper.pos" ∈ _valid_keys r then
    (true, Event.acquire ::
      oscEvents open_pose close_pose dwell (oscCycles seconds dwell))
  else (false, [Event.acquire])

/-- `nod(seconds, dwell, delta)`: oscillate `wrist_flex.pos` around the
base reading `r.get_observation().get("wrist_flex.pos", 0.0)`, sending
`down` then `up` each cycle. -/
def nod (r : Robot) (seconds dwell delta : ℚ) : Bool × List Event :=
  if seconds ≤ 0 ∨ dwell ≤ 0 then (true, [])
  else if "wrist_flex.pos" ∈ _valid_keys r then
    let base := lookupD r.obs "wrist_flex.pos" 0
    (true, Event.acquire ::
      oscEvents [("wrist_flex.pos", base - delta)] [("wrist_flex.pos", base + delta)]
        dwell (oscCycles seconds dwell))
  else (false, [Event.acquire])

/-- `thinking(seconds, dwell, roll_hi, roll_lo)`: oscillate
`wrist_roll.pos`, sending `lo_pose` then `hi_pose` each cycle. -/
def thinking (r : Robot) (seconds dwell roll_hi roll_lo : ℚ) : Bool × List Event :=
  if seconds ≤ 0 ∨ dwell ≤ 0 then (true, [])
  else if "wrist_roll.pos" ∈ _valid_keys r then
    (true, Event.acquire ::
      oscEvents [("wrist_roll.pos", roll_lo)] [("wrist_roll.pos", roll_hi)]
        dwell (oscCycles seconds dwell))
  else (false, [Event.acquire])

/-- `presenting_talk(seconds, settle, dwell)`: look up the `"presenting"`
pose, smoothly move to it (`duration=settle, fps=30, settle=0.0`), then
talk.  The trace is the concatenation of the phases that actually ran. -/
def presenting_talk (poses : List (String × Config)) (r : Robot)
    (seconds settle dwell : ℚ) : Bool × List Event :=
  let presenting := getPose poses "presenting"
  if presenting.isEmpty then (false, [])
  else
    let m := move r presenting settle 30 0
    if m.1 then
      let tk := talk r seconds dwell
      (tk.1, m.2 ++ tk.2)
    else (false, m.2)

/-- `listening(seconds, settle, dwell, delta)`: look up `"presenting"`,
smoothly move to it, then nod. -/
def listening (poses : List (String × Config)) (r : Robot)
    (seconds settle dwell delta : ℚ) : Bool × List Event :=
  let presenting := getPose poses "presenting"
  if presenting.isEmpty then (false, [])
  else
    let m := move r presenting settle 30 0
    if m.1 then
      let nd := nod r seconds dwell delta
      (nd.1, m.2 ++ nd.2)
    else (false, m.2)

/-! ## The device session manager -/

/-- The exception types the session manager distinguishes. -/
inductive PyError where
  | runtimeError : String → PyError
  | connectionError : String → PyError
  deriving DecidableEq

/-- `true` exactly when the given acquisition outcome is a raised
`ConnectionError`. -/
def isConnectionError : Except PyError ℕ → Bool
  | Except.error (PyError.connectionError _) => true
  | _ => false

/-- The environment variables `ROBOT_PORT` and `ROBOT_ID`. -/
structure Env where
  robotPort : Option String
  robotId : Option String

/-- Python truthiness of `os.getenv(...)`: `None` and `""` are falsy. -/
def strTruthy : Option String → Bool
  | none => false
  | some s => !(s == "")

/-- `_cfg()`: raise `RuntimeError` when `ROBOT_PORT` or `ROBOT_ID` is
missing, otherwise build the follower config. -/
def _cfg (e : Env) : Except PyError (String × String) :=
  if !(strTruthy e.robotPort) ∨ !(strTruthy e.robotId) then
    Except.error (PyError.runtimeError ".env missing ROBOT_PORT or ROBOT_ID")
  else Except.ok (e.robotPort.getD "", e.robotId.getD "")

/-- `_PERSIST = True`: one robot connection is kept alive for the whole
process. -/
def _PERSIST : Bool := true

/-- The session-manager state: the global `_ROBOT` (a session identity, or
`none`), a supply of fresh session identities, and counters for the
`connect`/`disconnect` calls issued to the transport. -/
structure MgrState where
  robot : Option ℕ
  nextId : ℕ
  connects : ℕ
  disconnects : ℕ
  deriving DecidableEq

/-- The state at process start: `_ROBOT = None`, no transport calls yet. -/
def initState : MgrState := ⟨none, 0, 0, 0⟩

/-- `_get_robot()`.  `connectResult` is the outcome of the underlying
`connect(calibrate=False)` call, an external collaborator.  The body runs
under `_LOCK`, so concurrent callers execute it serially.  Note that the
source assigns `_ROBOT = SO101Follower(_cfg())` before calling `connect`,
so a failed connect still leaves `_ROBOT` set. -/
def _get_robot (e : Env) (connectResult : Except PyError Unit) (s : MgrState) :
    Except PyError ℕ × MgrState :=
  if !_PERSIST then
    match _cfg e with
    | Except.error err => (Except.error err, s)
    | Except.ok _ =>
      match connectResult with
      | Except.error err =>
        (Except.error err, { s with nextId := s.nextId + 1, connects := s.connects + 1 })
      | Except.ok _ =>
        (Except.ok s.nextId, { s with nextId := s.nextId + 1, connects := s.connects + 1 })
  else
    match s.robot with
    | some r => (Except.ok r, s)
    | none =>
      match _cfg e with
      | Except.error err => (Except.error err, s)
      | Except.ok _ =>
        let s1 : MgrState :=
          { s with robot := some s.nextId, nextId := s.nextId + 1, connects := s.connects + 1 }
        match connectResult with
        | Except.error err => (Except.error err, s1)
        | Except.ok _ => (Except.ok s.nextId, s1)

/-- A serial sequence of `n` acquisitions (the order `_LOCK` imposes on
concurrent callers), collecting each outcome. -/
def acquireSeq (e : Env) (cr : Except PyError Unit) : ℕ → MgrState → List (Except PyError ℕ) × MgrState
  | 0, s => ([], s)
  | n + 1, s =>
    let rs := _get_robot e cr s
    let rest := acquireSeq e cr n rs.2
    (rs.1 :: rest.1, rest.2)

/-- `_cleanup_robot()`: under `_LOCK`, disconnect `_ROBOT` if it exists
(swallowing any exception with `try/except: pass`) and set it to `None`.
The disconnect outcome `dr` is immaterial to the result, and the function
is total: it cannot raise. -/
def _cleanup_robot (_dr : Except PyError Unit) (s : MgrState) : MgrState :=
  match s.robot with
  | none => s
  | some _ => { s with robot := none, disconnects := s.disconnects + 1 }

/-! ## Trace bookkeeping lemmas -/

theorem sends_append (a b : List Event) : sends (a ++ b) = sends a ++ sends b := by
  simp [sends, List.filterMap_append]

theorem sleeps_append (a b : List Event) : sleeps (a ++ b) = sleeps a ++ sleeps b := by
  simp [sleeps, List.filterMap_append]

theorem sends_settleEvents (settle : ℚ) : sends (settleEvents settle) = [] := by
  unfold settleEvents
  split <;> simp [sends]

theorem sleeps_settleEvents (settle : ℚ) :
    sleeps (settleEvents settle) = if 0 < settle then [settle] else [] := by
  unfold settleEvents
  split <;> simp [sleeps]

theorem sends_sendSleep (fs : List Config) (dt : ℚ) :
    sends (fs.flatMap fun f => [Event.send f, Event.sleep dt]) = fs := by
  induction fs with
  | nil => rfl
  | cons f fs ih => simpa [sends] using ih

theorem sleeps_sendSleep (fs : List Config) (dt : ℚ) :
    sleeps (fs.flatMap fun f => [Event.send f, Event.sleep dt]) =
      List.replicate fs.length dt := by
  induction fs with
  | nil => rfl
  | cons f fs ih => simpa [sleeps, List.replicate_succ] using ih

theorem sends_osc_flatMap (a b : Config) (w : ℚ) (l : List ℕ) :
    sends (l.flatMap fun _ => [Event.send a, Event.sleep w, Event.send b, Event.sleep w]) =
      l.flatMap fun _ => [a, b] := by
  induction l with
  | nil => rfl
  | cons x l ih => simpa [sends] using ih

theorem sends_oscEvents (a b : Config) (w : ℚ) (c : ℕ) :
    sends (oscEvents a b w c) = (List.range c).flatMap fun _ => [a, b] :=
  sends_osc_flatMap a b w (List.range c)

theorem length_pairs_flatMap (a b : Config) (l : List ℕ) :
    (l.flatMap fun _ => [a, b]).length = 2 * l.length := by
  induction l with
  | nil => rfl
  | cons x l ih =>
    simp only [List.flatMap_cons, List.length_append, List.length_cons, ih]
    simp [Nat.mul_succ]
    omega

/-! ## Shape lemmas for `move` -/

theorem startConf_keys (r : Robot) : (startConf r).map Prod.fst = _valid_keys r := by
  unfold startConf _valid_keys
  induction r.obs with
  | nil => rfl
  | cons p l ih =>
    by_cases h : strEndsWith p.1 ".pos" = true
    · simp [h, ih]
    · simp only [Bool.not_eq_true] at h
      simp [h, ih]

theorem mem_filteredTarget_valid (r : Robot) (target : Config) (p : Key × Val)
    (hp : p ∈ filteredTarget r target) : p.1 ∈ _valid_keys r := by
  have h := List.of_mem_filter hp
  simpa using h

theorem jointKeys_ne_nil (r : Robot) (target : Config)
    (hne : filteredTarget r target ≠ []) :
    jointKeys (startConf r) (filteredTarget r target) ≠ [] := by
  obtain ⟨p, hp⟩ := List.exists_mem_of_ne_nil _ hne
  have h1 : p.1 ∈ _valid_keys r := mem_filteredTarget_valid r target p hp
  have h2 : p.1 ∈ (startConf r).map Prod.fst := by
    rw [startConf_keys]; exact h1
  have h3 : p.1 ∈ (filteredTarget r target).map Prod.fst :=
    List.mem_map_of_mem Prod.fst hp
  have h4 : p.1 ∈ ((startConf r).map Prod.fst ∩ (filteredTarget r target).map Prod.fst).dedup :=
    List.mem_dedup.mpr (List.mem_inter_of_mem_of_mem h2 h3)
  have h5 : p.1 ∈ jointKeys (startConf r) (filteredTarget r target) :=
    ((List.perm_insertionSort _ _).mem_iff).mpr h4
  exact List.ne_nil_of_mem h5

theorem smoothSteps_pos (d : ℚ) (fps : ℤ) : 1 ≤ smoothSteps d fps :=
  le_max_left 1 _

theorem move_instant_eq (r : Robot) (target : Config) (d : ℚ) (fps : ℤ) (settle : ℚ)
    (hd : d ≤ 0) (hne : filteredTarget r target ≠ []) :
    move r target d fps settle =
      (true, [Event.acquire, Event.send (filteredTarget r target)] ++ settleEvents settle) := by
  unfold move
  rw [if_neg (by simpa [List.isEmpty_iff] using hne), if_pos hd]

theorem move_smooth_eq (r : Robot) (target : Config) (d : ℚ) (fps : ℤ) (settle : ℚ)
    (hd : 0 < d) (hne : filteredTarget r target ≠ []) :
    move r target d fps settle =
      (true, Event.acquire ::
        ((smoothFrames (startConf r) (filteredTarget r target)
            (jointKeys (startConf r) (filteredTarget r target)) (smoothSteps d fps)).flatMap
          fun f => [Event.send f, Event.sleep (d / (smoothSteps d fps : ℚ))]) ++
        settleEvents settle) := by
  unfold move
  rw [if_neg (by simpa [List.isEmpty_iff] using hne), if_neg (not_le.mpr hd),
    if_neg (by simpa [List.isEmpty_iff] using jointKeys_ne_nil r target hne)]

theorem move_empty_eq (r : Robot) (target : Config) (d : ℚ) (fps : ℤ) (settle : ℚ)
    (hne : filteredTarget r target = []) :
    move r target d fps settle = (false, [Event.acquire]) := by
  unfold move
  rw [if_pos (by simpa [List.isEmpty_iff] using hne)]

theorem sends_cons_acquire (l : List Event) : sends (Event.acquire :: l) = sends l := by
  simp [sends]

theorem sleeps_cons_acquire (l : List Event) : sleeps (Event.acquire :: l) = sleeps l := by
  simp [sleeps]

/-! ## Easing-curve lemmas -/

theorem ease_zero : _ease_in_out_quad 0 = 0 := by norm_num [_ease_in_out_quad]

theorem ease_one : _ease_in_out_quad 1 = 1 := by norm_num [_ease_in_out_quad]

theorem ease_half : _ease_in_out_quad (1/2) = 1/2 := by norm_num [_ease_in_out_quad]

theorem ease_mono (s t : ℚ) (hs : 0 ≤ s) (hst : s ≤ t) (ht : t ≤ 1) :
    _ease_in_out_quad s ≤ _ease_in_out_quad t := by
  unfold _ease_in_out_quad
  split_ifs with h1 h2 h2
  · nlinarith
  · nlinarith
  · linarith
  · nlinarith

/-! ## The final interpolation frame -/

theorem smoothFrames_getLast (start tgt : Config) (ks : List Key) (steps : ℕ)
    (h : 1 ≤ steps) :
    (smoothFrames start tgt ks steps).getLast? =
      some (ks.map fun k => (k, lookupD tgt k 0)) := by
  have hlen : (smoothFrames start tgt ks steps).length = steps := by
    simp [smoothFrames]
  have hstep : (smoothFrames start tgt ks steps).getLast? =
      some (frameAt start tgt ks steps steps) := by
    rw [List.getLast?_eq_getElem?, hlen]
    have hidx : steps - 1 < steps := by omega
    have hsucc : steps - 1 + 1 = steps := by omega
    simp only [smoothFrames, List.getElem?_map, List.getElem?_range hidx]
    simp [hsucc]
  rw [hstep]
  unfold frameAt
  congr 1
  apply List.map_congr_left
  intro k _
  have hne : (steps : ℚ) ≠ 0 := Nat.cast_ne_zero.mpr (by omega)
  rw [div_self hne, ease_one]
  ring_nf

/-! ## Session-manager lemmas -/

theorem get_robot_cached (e : Env) (cr : Except PyError Unit) (s : MgrState) (k : ℕ)
    (h : s.robot = some k) : _get_robot e cr s = (Except.ok k, s) := by
  unfold _get_robot _PERSIST
  simp [h]

theorem get_robot_first (e : Env) (s : MgrState)
    (hrob : s.robot = none)
    (hp : strTruthy e.robotPort = true) (hi : strTruthy e.robotId = true) :
    _get_robot e (Except.ok ()) s =
      (Except.ok s.nextId,
        { s with robot := some s.nextId, nextId := s.nextId + 1, connects := s.connects + 1 }) := by
  unfold _get_robot _PERSIST _cfg
  simp [hrob, hp, hi]

theorem acquireSeq_cached (e : Env) (cr : Except PyError Unit) (n : ℕ) (s : MgrState) (k : ℕ)
    (h : s.robot = some k) :
    acquireSeq e cr n s = (List.replicate n (Except.ok k), s) := by
  induction n with
  | zero => rfl
  | succ m ih =>
    rw [acquireSeq, get_robot_cached e cr s k h]
    simp [ih, List.replicate_succ]

/-! ## Claims -/

/-- C3: for every duration `d ≤ 0` and every target whose filtered key set
(target keys intersected with the actionable position channels of the device) is
non-empty, `move` sends exactly one command equal to the filtered target,
samples no intermediate frames, and returns true. -/
theorem move_instant_single_send (r : Robot) (target : Config) (d : ℚ) (fps : ℤ)
    (settle : ℚ) (hd : d ≤ 0) (hne : filteredTarget r target ≠ []) :
    (move r target d fps settle).1 = true ∧
    sends (move r target d fps settle).2 = [filteredTarget r target] := by
  rw [move_instant_eq r target d fps settle hd hne]
  refine ⟨rfl, ?_⟩
  rw [show (true, [Event.acquire, Event.send (filteredTarget r target)] ++ settleEvents settle).2
      = [Event.acquire, Event.send (filteredTarget r target)] ++ settleEvents settle from rfl,
    sends_append, sends_settleEvents, List.append_nil]
  simp [sends]

/-- Witness for C3 at a concrete device and target. -/
theorem move_instant_single_send_witness :
    (move ⟨[("wrist_flex.pos", 0)]⟩ [("wrist_flex.pos", 7)] 0 30 0).1 = true ∧
    sends (move ⟨[("wrist_flex.pos", 0)]⟩ [("wrist_flex.pos", 7)] 0 30 0).2 =
      [[("wrist_flex.pos", 7)]] := by
  have h := move_instant_single_send ⟨[("wrist_flex.pos", 0)]⟩ [("wrist_flex.pos", 7)] 0 30 0
    (by norm_num) (by decide)
  exact ⟨h.1, h.2.trans (by decide)⟩

/-- C4: for every target whose key set shares no element with the
actionable position-channel set of the device, `move` returns false and sends zero device
commands, for every duration and sample rate. -/
theorem move_disjoint_keys_fails (r : Robot) (target : Config) (d : ℚ) (fps : ℤ)
    (settle : ℚ) (h : ∀ p ∈ target, p.1 ∉ _valid_keys r) :
    (move r target d fps settle).1 = false ∧
    sends (move r target d fps settle).2 = [] := by
  have hft : filteredTarget r target = [] := by
    refine List.filter_eq_nil_iff.mpr ?_
    intro p hp
    simpa using h p hp
  rw [move_empty_eq r target d fps settle hft]
  exact ⟨rfl, rfl⟩

/-- Witness for C4: a target naming only an unknown channel. -/
theorem move_disjoint_keys_fails_witness :
    (move ⟨[("gripper.pos", 0)]⟩ [("elbow.pos", 3)] (3/2) 30 0).1 = false ∧
    sends (move ⟨[("gripper.pos", 0)]⟩ [("elbow.pos", 3)] (3/2) 30 0).2 = [] :=
  move_disjoint_keys_fails ⟨[("gripper.pos", 0)]⟩ [("elbow.pos", 3)] (3/2) 30 0 (by decide)

/-- C6: for every binary oscillation (talk, nod, thinking), if
`duration ≤ 0` or `dwell ≤ 0` then the operation returns true as a no-op,
sending no device command and without acquiring a session at all (the empty
trace contains neither a send nor an acquire event). -/
theorem osc_degenerate_noop (r : Robot) (s w delta hi lo : ℚ) (h : s ≤ 0 ∨ w ≤ 0) :
    talk r s w = (true, []) ∧
    nod r s w delta = (true, []) ∧
    thinking r s w hi lo = (true, []) := by
  unfold talk nod thinking
  rw [if_pos h, if_pos h, if_pos h]
  exact ⟨rfl, rfl, rfl⟩

/-- Witness for C6 at `seconds = 0`. -/
theorem osc_degenerate_noop_witness :
    talk ⟨[("gripper.pos", 0)]⟩ 0 (1/4) = (true, []) ∧
    nod ⟨[("gripper.pos", 0)]⟩ 0 (1/4) 15 = (true, []) ∧
    thinking ⟨[("gripper.pos", 0)]⟩ 0 (1/4) (129/5) (-(152/5)) = (true, []) :=
  osc_degenerate_noop ⟨[("gripper.pos", 0)]⟩ 0 (1/4) 15 (129/5) (-(152/5))
    (Or.inl (by norm_num))

/-- C10: `shutdown()` (`_cleanup_robot`) never raises (it is a total
function whose result does not depend on the disconnect outcome, the
`try/except: pass`, witnessed by the last conjunct), it disconnects the
persistent session if one exists (exactly one disconnect call), it clears
the stored reference to `None`, and it is idempotent: a second invocation
changes nothing and performs no further disconnect. -/
theorem cleanup_idempotent_never_raises (dr dr2 : Except PyError Unit) (s : MgrState) :
    (_cleanup_robot dr s).robot = none ∧
    (s.robot ≠ none → (_cleanup_robot dr s).disconnects = s.disconnects + 1) ∧
    _cleanup_robot dr2 (_cleanup_robot dr s) = _cleanup_robot dr s ∧
    (_cleanup_robot dr2 (_cleanup_robot dr s)).disconnects = (_cleanup_robot dr s).disconnects ∧
    _cleanup_robot dr s = _cleanup_robot dr2 s := by
  cases s with
  | mk rob nid cn dn => cases rob <;> simp [_cleanup_robot]

/-- Witness for C10: a live session is disconnected exactly once and the
reference cleared, even when the disconnect itself fails. -/
theorem cleanup_idempotent_never_raises_witness :
    (_cleanup_robot (Except.error (PyError.connectionError "serial port gone"))
      ⟨some 0, 1, 1, 0⟩).robot = none ∧
    (_cleanup_robot (Except.error (PyError.connectionError "serial port gone"))
      ⟨some 0, 1, 1, 0⟩).disconnects = 1 := by
  have h := cleanup_idempotent_never_raises
    (Except.error (PyError.connectionError "serial port gone")) (Except.ok ())
    ⟨some 0, 1, 1, 0⟩
  exact ⟨h.1, h.2.1 (by decide)⟩

/-- C1 (amended): for every duration `d > 0` and sample rate `fps`, a
successful smooth-mode move sends exactly `max(1, int(d × fps))` frames —
Python `int()` truncation toward zero, not `round()` — one `send_action`
call per step, with a per-frame delay of `d / steps` after each send
(followed only by the optional settle sleep). -/
theorem move_smooth_sends_trunc_steps (r : Robot) (target : Config) (d : ℚ) (fps : ℤ)
    (settle : ℚ) (hd : 0 < d) (hne : filteredTarget r target ≠ []) :
    (move r target d fps settle).1 = true ∧
    (sends (move r target d fps settle).2).length = max 1 (pyInt (d * fps)).toNat ∧
    sleeps (move r target d fps settle).2 =
      List.replicate (smoothSteps d fps) (d / (smoothSteps d fps : ℚ)) ++
        (if 0 < settle then [settle] else []) := by
  rw [move_smooth_eq r target d fps settle hd hne]
  refine ⟨rfl, ?_, ?_⟩
  · rw [show ∀ (a : Bool) (b : List Event), ((a, b) : Bool × List Event).2 = b
        from fun _ _ => rfl]
    rw [sends_append, sends_cons_acquire, sends_sendSleep, sends_settleEvents,
      List.append_nil]
    simp [smoothFrames, smoothSteps]
  · rw [show ∀ (a : Bool) (b : List Event), ((a, b) : Bool × List Event).2 = b
        from fun _ _ => rfl]
    rw [sleeps_append, sleeps_cons_acquire, sleeps_sendSleep, sleeps_settleEvents]
    congr 1
    simp [smoothFrames]

/-- C1 counterexample to the claim as stated: at `duration = 1/4` and
`fps = 6` the product is `3/2`; the claimed frame count
`max(1, round(3/2)) = 2`, but the code sends `max(1, int(3/2)) = 1`
frame. -/
theorem move_round_claim_counterexample :
    (move ⟨[("a.pos", 0)]⟩ [("a.pos", 1)] (1/4) 6 0).1 = true ∧
    (sends (move ⟨[("a.pos", 0)]⟩ [("a.pos", 1)] (1/4) 6 0).2).length = 1 ∧
    max 1 (pyRound ((1/4 : ℚ) * 6)).toNat = 2 := by
  have h := move_smooth_eq ⟨[("a.pos", 0)]⟩ [("a.pos", 1)] (1/4) 6 0 (by norm_num) (by decide)
  refine ⟨by rw [h], ?_, ?_⟩
  · rw [h]
    rw [show ∀ (a : Bool) (b : List Event), ((a, b) : Bool × List Event).2 = b
        from fun _ _ => rfl]
    rw [sends_append, sends_cons_acquire, sends_sendSleep, sends_settleEvents,
      List.append_nil]
    simp only [smoothFrames, List.length_map, List.length_range]
    norm_num [smoothSteps, pyInt]
  · norm_num [pyRound]
    decide

/-- Witness for C1 at `duration = 1`, `fps = 30`: exactly 30 frames, each
followed by a sleep of `1/30`. -/
theorem move_smooth_sends_trunc_steps_witness :
    (move ⟨[("a.pos", 0)]⟩ [("a.pos", 2)] 1 30 0).1 = true ∧
    (sends (move ⟨[("a.pos", 0)]⟩ [("a.pos", 2)] 1 30 0).2).length = 30 ∧
    sleeps (move ⟨[("a.pos", 0)]⟩ [("a.pos", 2)] 1 30 0).2 = List.replicate 30 (1/30) := by
  have h := move_smooth_sends_trunc_steps ⟨[("a.pos", 0)]⟩ [("a.pos", 2)] 1 30 0
    (by norm_num) (by decide)
  refine ⟨h.1, ?_, ?_⟩
  · rw [h.2.1]
    norm_num [pyInt]
    decide
  · rw [h.2.2]
    norm_num [smoothSteps, pyInt]
    refine ⟨by decide, ?_⟩
    rw [show Int.toNat 30 = 30 from rfl]
    norm_num

/-- C5: for every binary oscillation (talk, nod, thinking) with
`duration > 0` and `dwell > 0` whose required channel is actionable (each
gesture conditioned only on its own channel), the gesture performs exactly
`cycles = max(1, ⌊duration / (2·dwell)⌋)` cycles (the truncation `int()`
of the code agrees with `⌊·⌋` on the non-negative quotient), each cycle
sending pose A then pose B, strictly alternating, `2·cycles` sends in
total; in particular `duration = 5`, `dwell = 1/4` yields 10 cycles. -/
theorem osc_cycle_count (r : Robot) (s w delta hi lo : ℚ) (hs : 0 < s) (hw : 0 < w) :
    oscCycles s w = max 1 ⌊s / (2 * w)⌋.toNat ∧
    ("gripper.pos" ∈ _valid_keys r →
      sends (talk r s w).2 =
        (List.range (oscCycles s w)).flatMap (fun _ => [open_pose, close_pose]) ∧
      (sends (talk r s w).2).length = 2 * oscCycles s w) ∧
    ("wrist_flex.pos" ∈ _valid_keys r →
      sends (nod r s w delta).2 =
        (List.range (oscCycles s w)).flatMap (fun _ =>
          [[("wrist_flex.pos", lookupD r.obs "wrist_flex.pos" 0 - delta)],
           [("wrist_flex.pos", lookupD r.obs "wrist_flex.pos" 0 + delta)]]) ∧
      (sends (nod r s w delta).2).length = 2 * oscCycles s w) ∧
    ("wrist_roll.pos" ∈ _valid_keys r →
      sends (thinking r s w hi lo).2 =
        (List.range (oscCycles s w)).flatMap (fun _ =>
          [[("wrist_roll.pos", lo)], [("wrist_roll.pos", hi)]]) ∧
      (sends (thinking r s w hi lo).2).length = 2 * oscCycles s w) ∧
    oscCycles 5 (1/4) = 10 := by
  have hnot : ¬ (s ≤ 0 ∨ w ≤ 0) := by push_neg; exact ⟨hs, hw⟩
  refine ⟨?_, fun hg => ?_, fun hf => ?_, fun hr2 => ?_, ?_⟩
  · unfold oscCycles pyInt
    rw [if_pos (by positivity)]
  · have htalk : sends (talk r s w).2 =
        (List.range (oscCycles s w)).flatMap (fun _ => [open_pose, close_pose]) := by
      unfold talk
      rw [if_neg hnot, if_pos hg]
      rw [show ∀ (a : Bool) (b : List Event), ((a, b) : Bool × List Event).2 = b
          from fun _ _ => rfl]
      rw [sends_cons_acquire, sends_oscEvents]
    exact ⟨htalk, by rw [htalk, length_pairs_flatMap, List.length_range]⟩
  · have hnod : sends (nod r s w delta).2 =
        (List.range (oscCycles s w)).flatMap (fun _ =>
          [[("wrist_flex.pos", lookupD r.obs "wrist_flex.pos" 0 - delta)],
           [("wrist_flex.pos", lookupD r.obs "wrist_flex.pos" 0 + delta)]]) := by
      unfold nod
      rw [if_neg hnot, if_pos hf]
      rw [show ∀ (a : Bool) (b : List Event), ((a, b) : Bool × List Event).2 = b
          from fun _ _ => rfl]
      rw [sends_cons_acquire, sends_oscEvents]
    exact ⟨hnod, by rw [hnod, length_pairs_flatMap, List.length_range]⟩
  · have hthink : sends (thinking r s w hi lo).2 =
        (List.range (oscCycles s w)).flatMap (fun _ =>
          [[("wrist_roll.pos", lo)], [("wrist_roll.pos", hi)]]) := by
      unfold thinking
      rw [if_neg hnot, if_pos hr2]
      rw [show ∀ (a : Bool) (b : List Event), ((a, b) : Bool × List Event).2 = b
          from fun _ _ => rfl]
      rw [sends_cons_acquire, sends_oscEvents]
    exact ⟨hthink, by rw [hthink, length_pairs_flatMap, List.length_range]⟩
  · norm_num [oscCycles, pyInt]
    decide

/-- Witness for C5: on a device exposing only `gripper.pos`,
`duration = 5`, `dwell = 1/4` gives 10 cycles and 20 gripper sends. -/
theorem osc_cycle_count_witness :
    oscCycles 5 (1/4) = 10 ∧
    (sends (talk ⟨[("gripper.pos", 0)]⟩ 5 (1/4)).2).length = 20 := by
  have h := osc_cycle_count ⟨[("gripper.pos", 0)]⟩ 5 (1/4) 15 (129/5) (-(152/5))
    (by norm_num) (by norm_num)
  obtain ⟨-, htalk, -, -, hten⟩ := h
  refine ⟨hten, ?_⟩
  rw [(htalk (by decide)).2, hten]

/-- C7: for every composite gesture (presenting_talk, listening), if the
"presenting" pose is missing or empty in the pose store, or the smooth
move to it returns false, the gesture returns false and its trace is at
most the own trace of the move — the oscillation phase contributes no events,
so it sends zero device commands. -/
theorem composite_short_circuit (poses : List (String × Config)) (r : Robot)
    (s st w delta : ℚ)
    (h : getPose poses "presenting" = [] ∨
      (move r (getPose poses "presenting") st 30 0).1 = false) :
    (presenting_talk poses r s st w).1 = false ∧
    (presenting_talk poses r s st w).2 =
      (if getPose poses "presenting" = [] then []
       else (move r (getPose poses "presenting") st 30 0).2) ∧
    (listening poses r s st w delta).1 = false ∧
    (listening poses r s st w delta).2 =
      (if getPose poses "presenting" = [] then []
       else (move r (getPose poses "presenting") st 30 0).2) := by
  unfold presenting_talk listening
  by_cases hp : getPose poses "presenting" = []
  · simp [hp]
  · have hm : (move r (getPose poses "presenting") st 30 0).1 = false := by
      rcases h with h | h
      · exact absurd h hp
      · exact h
    simp [hp, hm, List.isEmpty_iff]

/-- Witness for C7: a pose store with no "presenting" entry. -/
theorem composite_short_circuit_witness :
    (presenting_talk [("rest", [("a.pos", 1)])] ⟨[("gripper.pos", 0)]⟩ 4 1 (1/4)).1 = false ∧
    (presenting_talk [("rest", [("a.pos", 1)])] ⟨[("gripper.pos", 0)]⟩ 4 1 (1/4)).2 = [] ∧
    (listening [("rest", [("a.pos", 1)])] ⟨[("gripper.pos", 0)]⟩ 3 1 (3/10) 15).1 = false ∧
    (listening [("rest", [("a.pos", 1)])] ⟨[("gripper.pos", 0)]⟩ 3 1 (3/10) 15).2 = [] := by
  have h4 := composite_short_circuit [("rest", [("a.pos", 1)])] ⟨[("gripper.pos", 0)]⟩
    4 1 (1/4) 15 (Or.inl (by decide))
  have h3 := composite_short_circuit [("rest", [("a.pos", 1)])] ⟨[("gripper.pos", 0)]⟩
    3 1 (3/10) 15 (Or.inl (by decide))
  exact ⟨h4.1, h4.2.1.trans (by decide), h3.2.2.1, h3.2.2.2.trans (by decide)⟩

/-- C8: the easing function satisfies `e(0) = 0`, `e(1) = 1`,
`e(1/2) = 1/2`, and is monotonically non-decreasing on `[0, 1]`; in exact
(rational) arithmetic the final interpolation frame of a successful
smooth-mode move (the step with `t = 1`) carries exactly the filtered
target value on every interpolated joint key. -/
theorem ease_and_final_frame :
    _ease_in_out_quad 0 = 0 ∧ _ease_in_out_quad 1 = 1 ∧
    _ease_in_out_quad (1/2) = 1/2 ∧
    (∀ s t : ℚ, 0 ≤ s → s ≤ t → t ≤ 1 →
      _ease_in_out_quad s ≤ _ease_in_out_quad t) ∧
    ∀ (r : Robot) (target : Config) (d : ℚ) (fps : ℤ) (settle : ℚ),
      0 < d → filteredTarget r target ≠ [] →
      (sends (move r target d fps settle).2).getLast? =
        some ((jointKeys (startConf r) (filteredTarget r target)).map
          fun k => (k, lookupD (filteredTarget r target) k 0)) := by
  refine ⟨ease_zero, ease_one, ease_half, ease_mono, ?_⟩
  intro r target d fps settle hd hne
  rw [move_smooth_eq r target d fps settle hd hne]
  rw [show ∀ (a : Bool) (b : List Event), ((a, b) : Bool × List Event).2 = b
      from fun _ _ => rfl]
  rw [sends_append, sends_cons_acquire, sends_sendSleep, sends_settleEvents,
    List.append_nil]
  exact smoothFrames_getLast _ _ _ _ (smoothSteps_pos d fps)

/-- Witness for C8: easing monotonicity at `1/4 ≤ 3/4` and the final frame
of a one-joint move evaluated to its literal value. -/
theorem ease_and_final_frame_witness :
    _ease_in_out_quad (1/4) ≤ _ease_in_out_quad (3/4) ∧
    (sends (move ⟨[("a.pos", 0)]⟩ [("a.pos", 1)] 1 1 0).2).getLast? =
      some [("a.pos", 1)] := by
  constructor
  · exact ease_and_final_frame.2.2.2.1 (1/4) (3/4) (by norm_num) (by norm_num) (by norm_num)
  · refine (ease_and_final_frame.2.2.2.2 ⟨[("a.pos", 0)]⟩ [("a.pos", 1)] 1 1 0
      (by norm_num) (by decide)).trans ?_
    decide

/-- C2 counterexample to the claim as stated: with `ROBOT_PORT` unset and
`ROBOT_ID` set, acquisition (lazily triggered while `_ROBOT` is `None`)
raises `RuntimeError(".env missing ROBOT_PORT or ROBOT_ID")`, which is not
a `ConnectionError`. -/
theorem acquire_missing_port_counterexample :
    (_get_robot ⟨none, some "so101arm"⟩ (Except.ok ()) initState).1 =
      Except.error (PyError.runtimeError ".env missing ROBOT_PORT or ROBOT_ID") ∧
    isConnectionError (_get_robot ⟨none, some "so101arm"⟩ (Except.ok ()) initState).1 =
      false := by
  constructor <;> rfl

/-- C2 (amended): for every call that triggers session acquisition while
the configured port or identifier is missing, `acquire()` fails by raising
`RuntimeError` (message `.env missing ROBOT_PORT or ROBOT_ID`) — a
different exception type from a `ConnectionError` raised by the underlying
connect call. -/
theorem acquire_missing_config_runtime_error (e : Env) (cr : Except PyError Unit)
    (s : MgrState) (hrob : s.robot = none)
    (h : strTruthy e.robotPort = false ∨ strTruthy e.robotId = false) :
    (_get_robot e cr s).1 =
      Except.error (PyError.runtimeError ".env missing ROBOT_PORT or ROBOT_ID") ∧
    isConnectionError (_get_robot e cr s).1 = false := by
  have hcfg : _cfg e =
      Except.error (PyError.runtimeError ".env missing ROBOT_PORT or ROBOT_ID") := by
    unfold _cfg
    rcases h with h | h <;> rw [if_pos] <;> simp [h]
  unfold _get_robot _PERSIST
  rw [hrob]
  simp [hcfg, isConnectionError]

/-- Witness for C2 at a concrete environment missing `ROBOT_ID`. -/
theorem acquire_missing_config_runtime_error_witness :
    (_get_robot ⟨some "/dev/ttyACM0", none⟩ (Except.ok ()) initState).1 =
      Except.error (PyError.runtimeError ".env missing ROBOT_PORT or ROBOT_ID") ∧
    isConnectionError (_get_robot ⟨some "/dev/ttyACM0", none⟩ (Except.ok ()) initState).1 =
      false :=
  acquire_missing_config_runtime_error ⟨some "/dev/ttyACM0", none⟩ (Except.ok ())
    initState rfl (Or.inr rfl)

/-- C9: under the persistent policy, a serial sequence of `n` acquisitions
from process start (the order imposed by `_LOCK`, which also covers two
acquisitions from different threads) all return the same session object
(the one the first call created), and the underlying connect call occurs
at most once across all of them. -/
theorem persistent_single_connect (e : Env) (n : ℕ)
    (hp : strTruthy e.robotPort = true) (hi : strTruthy e.robotId = true) :
    (acquireSeq e (Except.ok ()) n initState).1 = List.replicate n (Except.ok 0) ∧
    (acquireSeq e (Except.ok ()) n initState).2.connects ≤ 1 := by
  cases n with
  | zero => exact ⟨rfl, by norm_num [acquireSeq, initState]⟩
  | succ m =>
    have h1 : _get_robot e (Except.ok ()) initState =
        (Except.ok 0, ⟨some 0, 1, 1, 0⟩) := by
      rw [get_robot_first e initState rfl hp hi]
      rfl
    have h2 := acquireSeq_cached e (Except.ok ()) m ⟨some 0, 1, 1, 0⟩ 0 rfl
    rw [acquireSeq, h1]
    simp only [h2]
    exact ⟨by simp [List.replicate_succ], by norm_num⟩

/-- Witness for C9: two acquisitions with a well-formed environment. -/
theorem persistent_single_connect_witness :
    (acquireSeq ⟨some "/dev/ttyACM0", some "so101arm"⟩ (Except.ok ()) 2 initState).1 =
      List.replicate 2 (Except.ok 0) ∧
    (acquireSeq ⟨some "/dev/ttyACM0", some "so101arm"⟩ (Except.ok ()) 2
      initState).2.connects ≤ 1 :=
  persistent_single_connect ⟨some "/dev/ttyACM0", some "so101arm"⟩ 2 (by decide) (by decide)

end Server
